import Mathlib

/-!
Verification of the crawl-orchestration and detail-caching engine of the
government vacancy scraper: a shallow embedding of the NSWJobSpider and
SeekJobSpider classes (src/spiders/nswGovJobs.js and the seek spider source)
and of the PublicJobSpider recovery handlers, with theorems about cache
freshness, paging, per-item failure containment, merging and recovery.
-/

namespace Scraper

/-! ## Data model

Job Summary fields are the ten fields the NSW list-page extractor returns per
`.job-card` element (nswGovJobs.js lines 298-309); Job Detail fields are what
the detail-page evaluate returns (lines 435-448). -/

structure ContactInfo where
  name : String
  email : String
  phone : String
  deriving DecidableEq, Repr

structure DetailMetadata where
  lastScraped : String
  deriving DecidableEq, Repr

structure JobDetails where
  organization : String
  category : String
  location : String
  workType : String
  remuneration : String
  closingDateTime : String
  description : String
  contactInfo : ContactInfo
  relatedJobs : Nat
  metadata : DetailMetadata
  deriving DecidableEq, Repr

structure JobInfo where
  title : String
  postingDate : String
  closingDate : String
  categories : List String
  locations : List String
  department : String
  jobType : String
  jobId : String
  jobUrl : String
  description : String
  deriving DecidableEq, Repr

/-- A JavaScript object value occurring in a persisted job record: a string
field, a string-list field, or the `details` field (null or a Job Detail). -/
inductive JValue where
  | s (v : String)
  | strs (v : List String)
  | det (v : Option JobDetails)
  deriving DecidableEq, Repr

/-- Property read on a JS object modelled as an ordered association list. -/
def getField : List (String × JValue) → String → Option JValue
  | [], _ => none
  | (k, v) :: rest, key => if k = key then some v else getField rest key

/-- Property write with JS semantics: an existing key keeps its position and
is overwritten; a new key is appended. -/
def objSet (o : List (String × JValue)) (key : String) (v : JValue) :
    List (String × JValue) :=
  match o with
  | [] => [(key, v)]
  | (k, w) :: rest => if k = key then (key, v) :: rest else (k, w) :: objSet rest key v

/-- The own enumerable properties of a Job Summary, in the order the
extractor callback returns them (nswGovJobs.js lines 298-309). -/
def JobInfo.fields (j : JobInfo) : List (String × JValue) :=
  [("title", JValue.s j.title), ("postingDate", JValue.s j.postingDate),
   ("closingDate", JValue.s j.closingDate), ("categories", JValue.strs j.categories),
   ("locations", JValue.strs j.locations), ("department", JValue.s j.department),
   ("jobType", JValue.s j.jobType), ("jobId", JValue.s j.jobId),
   ("jobUrl", JValue.s j.jobUrl), ("description", JValue.s j.description)]

/-- The merge at nswGovJobs.js lines 336-342: the spread
of jobInfo followed by setting the details property. -/
def mergeRecord (j : JobInfo) (d : Option JobDetails) : List (String × JValue) :=
  objSet j.fields "details" (JValue.det d)

/-! ## Cache Store

nswGovJobs.js keeps cachedJobs as a Map from jobId to
an entry holding lastScraped (a date string) and details. -/

structure CacheEntry where
  lastScraped : String
  details : JobDetails
  deriving DecidableEq, Repr

def lookupEntry : List (String × CacheEntry) → String → Option CacheEntry
  | [], _ => none
  | (k, e) :: rest, jobId => if k = jobId then some e else lookupEntry rest jobId

/-- Map.set: overwrite in place, else append. -/
def setEntry : List (String × CacheEntry) → String → CacheEntry → List (String × CacheEntry)
  | [], jobId, e => [(jobId, e)]
  | (k, w) :: rest, jobId, e =>
      if k = jobId then (jobId, e) :: rest else (k, w) :: setEntry rest jobId e

def msPerDay : Int := 24 * 60 * 60 * 1000

/-- The comparison `now - lastScraped > limit` of nswGovJobs.js line 79,
with JavaScript NaN semantics: when the stored date does not parse,
`new Date(s)` is an Invalid Date, the subtraction yields NaN, and the
comparison is false. The age `now - lastScraped` is passed as an
`Option Int` (`none` for NaN). -/
def jsAgeExceeds (age : Option Int) (limit : Int) : Bool :=
  match age with
  | none => false
  | some a => decide (limit < a)

/-- `#checkCache` (nswGovJobs.js lines 71-84; the seek spider has the same
body): absent key reports null; otherwise null when the entry is older than
24 hours, else the cached details. `parseDate` models `new Date(s).valueOf()`
in milliseconds, `none` for an Invalid Date. -/
def checkCache (parseDate : String → Option Int) (cache : List (String × CacheEntry))
    (now : Int) (jobId : String) : Option JobDetails :=
  match lookupEntry cache jobId with
  | none => none
  | some cached =>
      if jsAgeExceeds (Option.map (fun t0 => now - t0) (parseDate cached.lastScraped)) msPerDay
      then none
      else some cached.details

def padTwo (n : Nat) : String :=
  if n < 10 then "0" ++ toString n else toString n

/-- The `#date` timestamp format of nswGovJobs.js lines 129-137:
`YYYY-MM-DD-HH-MM-SS`. This is the string `loadCache` later copies from
the `metadata.date_scraped` of a result file into the `lastScraped` of a
cache entry. -/
def dateTimestamp (year month day hour minute second : Nat) : String :=
  toString year ++ "-" ++ padTwo month ++ "-" ++ padTwo day ++ "-" ++
    padTwo hour ++ "-" ++ padTwo minute ++ "-" ++ padTwo second

/-- A job object inside a persisted result file: `loadCache` keeps it only
when `job.jobId` and `job.details` are both truthy. -/
structure FileJob where
  jobId : String
  details : Option JobDetails
  deriving DecidableEq, Repr

structure ResultFile where
  dateScraped : String
  jobs : List FileJob
  deriving DecidableEq, Repr

/-- `loadCache` for one result file (nswGovJobs.js lines 43-58): each job
with a truthy jobId and details is inserted with
`lastScraped := metadata.date_scraped` of the file. -/
def loadCacheFile (cache : List (String × CacheEntry)) (f : ResultFile) :
    List (String × CacheEntry) :=
  f.jobs.foldl
    (fun c job =>
      match job.details with
      | some d => if job.jobId = "" then c else setEntry c job.jobId ⟨f.dateScraped, d⟩
      | none => c)
    cache

/-! ## Detail Fetcher

`#scrapeJobDetails(jobUrl, jobId)` (nswGovJobs.js lines 360-465; the seek
spider version at its lines 837-895 has the same control structure):
check the cache first and return immediately on a fresh hit; otherwise open a
second page, navigate, wait for the detail container, extract, close the page,
insert into the cache; any throw inside the try is caught and null returned.
The behaviour of the rendering provider for one call is an environment value. -/

inductive DetailFetchEnv where
  | newPageFails (msg : String)
  | gotoFails (msg : String)
  | waitFails (msg : String)
  | evalFails (msg : String)
  | ok (d : JobDetails) (nowIso : String)
  deriving DecidableEq, Repr

def DetailFetchEnv.isFailure : DetailFetchEnv → Bool
  | .ok _ _ => false
  | _ => true

/-- What one detail-fetch call did to its resources: whether a second page
was opened, whether it was closed before returning, how many URL loads were
attempted, and the cache as left behind. -/
structure DetailState where
  opened : Bool
  closed : Bool
  navigations : Nat
  cacheAfter : List (String × CacheEntry)
  deriving DecidableEq, Repr

/-- The try block of `#scrapeJobDetails` (lines 368-460): `detailPage.close()`
is reached only after navigation, wait and extraction all succeed; a throw at
any earlier step leaves the opened page unclosed. On success the cache entry
is replaced with `lastScraped = new Date().toISOString()`. -/
def detailTry (cache : List (String × CacheEntry)) (jobId : String)
    (env : DetailFetchEnv) : DetailState × Except String JobDetails :=
  match env with
  | .newPageFails m => (⟨false, false, 0, cache⟩, Except.error m)
  | .gotoFails m => (⟨true, false, 1, cache⟩, Except.error m)
  | .waitFails m => (⟨true, false, 1, cache⟩, Except.error m)
  | .evalFails m => (⟨true, false, 1, cache⟩, Except.error m)
  | .ok d iso => (⟨true, true, 1, setEntry cache jobId ⟨iso, d⟩⟩, Except.ok d)

/-- `#scrapeJobDetails`: cache check (lines 361-366) before the try; the
catch (lines 461-464) logs and returns null, so the call never raises. -/
def scrapeJobDetails (parseDate : String → Option Int)
    (cache : List (String × CacheEntry)) (now : Int) (jobId : String)
    (env : DetailFetchEnv) : DetailState × Option JobDetails :=
  match checkCache parseDate cache now jobId with
  | some d => (⟨false, false, 0, cache⟩, some d)
  | none =>
      match detailTry cache jobId env with
      | (st, Except.ok d) => (st, some d)
      | (st, Except.error _) => (st, none)

/-! ## Per-item processing in `#scrapeJobs` (nswGovJobs.js lines 317-349)

Each extracted summary is processed in order: on a fresh cache hit the
summary is pushed with the cached details and counted as skipped and
successful; otherwise `#scrapeJobDetails` is awaited (it never throws) and
the merged record is pushed and counted as successful. The catch that
increments `failedScrapes` fires only when the loop body throws. -/

structure ScrapeState where
  jobs : List (List (String × JValue))
  successfulScrapes : Nat
  failedScrapes : Nat
  skippedJobs : Nat
  navigations : Nat
  cache : List (String × CacheEntry)
  deriving DecidableEq, Repr

def initScrapeState (cache : List (String × CacheEntry)) : ScrapeState :=
  ⟨[], 0, 0, 0, 0, cache⟩

def processJob (parseDate : String → Option Int) (now : Int) (st : ScrapeState)
    (item : JobInfo × DetailFetchEnv) : ScrapeState :=
  match checkCache parseDate st.cache now item.1.jobId with
  | some d =>
      { st with
        jobs := st.jobs ++ [mergeRecord item.1 (some d)]
        skippedJobs := st.skippedJobs + 1
        successfulScrapes := st.successfulScrapes + 1 }
  | none =>
      let r := scrapeJobDetails parseDate st.cache now item.1.jobId item.2
      { st with
        jobs := st.jobs ++ [mergeRecord item.1 r.2]
        successfulScrapes := st.successfulScrapes + 1
        navigations := st.navigations + r.1.navigations
        cache := r.1.cacheAfter }

def scrapeJobs (parseDate : String → Option Int) (now : Int)
    (cache : List (String × CacheEntry)) (items : List (JobInfo × DetailFetchEnv)) :
    ScrapeState :=
  items.foldl (processJob parseDate now) (initScrapeState cache)

/-! ## Crawl Sessions

Page-count discovery and the paging loops.  `pages p` stands for the list of
summaries `#scrapeJobs` returns for page `p` after a successful navigation. -/

/-- `Math.ceil(totalJobs / pageSize)` on non-negative integers
(nswGovJobs.js line 173; seek spider line 643). -/
def computeTotalPages (totalJobs pageSize : Nat) : Nat :=
  (totalJobs + pageSize - 1) / pageSize

structure CrawlOutcome (α : Type) where
  allJobs : List α
  totalPages : Nat
  totalPagesPersisted : Nat
  navigated : List Nat
  deriving DecidableEq, Repr

/-- The NSW paging loop (nswGovJobs.js lines 176-188):
`while (currentPage <= totalPages)` with no emptiness check; pages above 1
are navigated unconditionally.  Each continuing iteration increments
`currentPage`, so `totalPages` units of fuel reproduce the while loop
exactly. Returns (allJobs, final currentPage, pages navigated). -/
def nswLoop {α : Type} (pages : Nat → List α) (totalPages : Nat) :
    Nat → Nat → List α → List Nat → List α × Nat × List Nat
  | 0, currentPage, acc, nav => (acc, currentPage, nav)
  | fuel + 1, currentPage, acc, nav =>
      if currentPage ≤ totalPages then
        nswLoop pages totalPages fuel (currentPage + 1) (acc ++ pages currentPage)
          (if 1 < currentPage then nav ++ [currentPage] else nav)
      else (acc, currentPage, nav)

/-- The NSW crawl (nswGovJobs.js lines 152-222): discovery navigates page 1,
computes `totalPages` with page size 25, runs the loop, and persists
`metadata.total_pages = totalPages` (line 205). -/
def nswCrawl {α : Type} (pages : Nat → List α) (totalJobs : Nat) : CrawlOutcome α :=
  let totalPages := computeTotalPages totalJobs 25
  let r := nswLoop pages totalPages totalPages 1 [] [1]
  { allJobs := r.1, totalPages := totalPages, totalPagesPersisted := totalPages,
    navigated := r.2.2 }

/-- The seek paging loop (seek spider lines 646-662):
`while (hasMoreJobs && currentPage <= totalPages)`; a page yielding zero jobs
clears `hasMoreJobs` and exits without incrementing `currentPage`. -/
def seekLoop {α : Type} (pages : Nat → List α) (totalPages : Nat) :
    Nat → Nat → List α → List Nat → List α × Nat × List Nat
  | 0, currentPage, acc, nav => (acc, currentPage, nav)
  | fuel + 1, currentPage, acc, nav =>
      if currentPage ≤ totalPages then
        if (pages currentPage).length = 0 then
          (acc, currentPage, if 1 < currentPage then nav ++ [currentPage] else nav)
        else
          seekLoop pages totalPages fuel (currentPage + 1) (acc ++ pages currentPage)
            (if 1 < currentPage then nav ++ [currentPage] else nav)
      else (acc, currentPage, nav)

/-- The seek crawl (seek spider lines 597-706): throws when the announced
count is zero (line 640), computes `totalPages` with page size 22, runs the
loop, and persists `metadata.total_pages = currentPage - 1` (line 679). -/
def seekCrawl {α : Type} (pages : Nat → List α) (totalJobs : Nat) :
    Except String (CrawlOutcome α) :=
  if totalJobs = 0 then Except.error "No jobs found on Seek"
  else
    let totalPages := computeTotalPages totalJobs 22
    let r := seekLoop pages totalPages totalPages 1 [] [1]
    Except.ok { allJobs := r.1, totalPages := totalPages,
                totalPagesPersisted := r.2.1 - 1, navigated := r.2.2 }

/-! ## Page Extractors

Per-item list extraction.  The extraction outcome of each element (the callback
may throw) is an `Except`.  The NSW extractor (nswGovJobs.js lines 265-311)
maps the callback over the elements with no per-item handler: the first
throw aborts the whole evaluate.  The seek extractor (seek spider lines
729-776) wraps each item in try/catch returning null and filters the nulls
out. -/

def nswExtract : List (Except String JobInfo) → Except String (List JobInfo)
  | [] => Except.ok []
  | e :: rest =>
      match e with
      | Except.error m => Except.error m
      | Except.ok j =>
          match nswExtract rest with
          | Except.error m => Except.error m
          | Except.ok js => Except.ok (j :: js)

def seekExtract : List (Except String JobInfo) → List JobInfo
  | [] => []
  | Except.error _ :: rest => seekExtract rest
  | Except.ok j :: rest => j :: seekExtract rest

/-! ## Recovery handlers of PublicJobSpider

The catch of `#crawl` (its lines 85-121): terminate, then for each known
signature contained in `err.message` write one error record and relaunch.
The catch of `#advertLinks` (lines 278-334): terminate, then for each of its
three signatures write an error record whether or not it matches, and
relaunch for each match.  Neither handler rethrows. -/

def startsWithChars : List Char → List Char → Bool
  | _, [] => true
  | [], _ :: _ => false
  | c :: cs, d :: ds => c == d && startsWithChars cs ds

def hasSubChars : List Char → List Char → Bool
  | [], sub => sub.isEmpty
  | c :: rest, sub => startsWithChars (c :: rest) sub || hasSubChars rest sub

/-- `s.includes(sub)` of JavaScript strings. -/
def jsIncludes (s sub : String) : Bool := hasSubChars s.toList sub.toList

def crawlTransientErrors : List String :=
  ["net::ERR_TIMED_OUT at https://www.govpage.co.za/",
   "Node is either not clickable or not an HTMLElement",
   "Navigation timeout of 100000 ms exceeded",
   "Cannot read properties of null (reading \x27isIntersectingViewport\x27)"]

def advertTransientErrors : List String :=
  ["Navigation failed because browser has disconnected!",
   "PID",
   "Target closed"]

structure RecoveryOutcome where
  errorRecords : Nat
  restarts : Nat
  released : Bool
  propagated : Bool
  deriving DecidableEq, Repr

/-- Both handlers call `#terminate()` before matching and neither rethrows. -/
def recoveryInit : RecoveryOutcome :=
  { errorRecords := 0, restarts := 0, released := true, propagated := false }

def crawlCatchStep (msg : String) (acc : RecoveryOutcome) (sig : String) :
    RecoveryOutcome :=
  if jsIncludes msg sig then
    { acc with errorRecords := acc.errorRecords + 1, restarts := acc.restarts + 1 }
  else acc

def publicCrawlCatch (msg : String) : RecoveryOutcome :=
  crawlTransientErrors.foldl (crawlCatchStep msg) recoveryInit

def advertCatchStep (msg : String) (acc : RecoveryOutcome) (sig : String) :
    RecoveryOutcome :=
  if jsIncludes msg sig then
    { acc with errorRecords := acc.errorRecords + 1, restarts := acc.restarts + 1 }
  else { acc with errorRecords := acc.errorRecords + 1 }

def publicAdvertCatch (msg : String) : RecoveryOutcome :=
  advertTransientErrors.foldl (advertCatchStep msg) recoveryInit

/-! ## Sample values for witnesses and counterexamples -/

def sampleDetails : JobDetails :=
  { organization := "Department of Planning and Environment"
    category := "Environment"
    location := "Sydney"
    workType := "Full-Time"
    remuneration := "$100,000"
    closingDateTime := "01/02/2025"
    description := "Full description"
    contactInfo := { name := "Jane Smith", email := "jane@example.com", phone := "0400 000 000" }
    relatedJobs := 0
    metadata := { lastScraped := "2025-01-01T00:00:00.000Z" } }

def sampleJob : JobInfo :=
  { title := "Project Officer", postingDate := "01/01/2025", closingDate := "01/02/2025",
    categories := ["Environment"], locations := ["Sydney"],
    department := "DCCEEW", jobType := "Full-Time", jobId := "REQ-1",
    jobUrl := "https://iworkfor.nsw.gov.au/job/req-1", description := "Short description" }

def sampleEntry : CacheEntry :=
  { lastScraped := "2025-01-01-10-00-00", details := sampleDetails }

def sampleCache : List (String × CacheEntry) := [("REQ-1", sampleEntry)]

/-- A date parser that resolves every string to epoch 0. -/
def parseAlways0 : String → Option Int := fun _ => some 0

/-- A date parser on which every string is an Invalid Date, as V8 gives for
the `YYYY-MM-DD-HH-MM-SS` strings `dateTimestamp` produces. -/
def parseNever : String → Option Int := fun _ => none

/-- A page-yield function: page 1 has one summary, later pages are empty. -/
def seekPagesW : Nat → List Nat := fun p => if p = 1 then [0] else []

/-! ## Supporting lemmas -/

/-- Each iteration of the `#scrapeJobs` item loop pushes exactly one record
and never touches `failedScrapes` (no step of the modelled body throws, so
the catch at nswGovJobs.js lines 345-348 cannot fire). -/
theorem scrapeJobs_fold_invariant (parseDate : String → Option Int) (now : Int) :
    ∀ (items : List (JobInfo × DetailFetchEnv)) (st : ScrapeState),
      (items.foldl (processJob parseDate now) st).failedScrapes = st.failedScrapes ∧
      (items.foldl (processJob parseDate now) st).jobs.length = st.jobs.length + items.length := by
  intro items
  induction items with
  | nil => intro st; simp
  | cons hd tl ih =>
      intro st
      have hstep : (processJob parseDate now st hd).failedScrapes = st.failedScrapes ∧
          (processJob parseDate now st hd).jobs.length = st.jobs.length + 1 := by
        unfold processJob
        cases checkCache parseDate st.cache now hd.1.jobId <;> simp
      have h := ih (processJob parseDate now st hd)
      simp only [List.foldl_cons, List.length_cons]
      exact ⟨by rw [h.1, hstep.1], by rw [h.2, hstep.2]; omega⟩

/-- The seek paging loop, started at `currentPage = cp` with fuel at least
`totalPages + 1 - cp`, stops exactly at the first empty page `k` and never
records a navigated page beyond `k`. -/
theorem seekLoop_early_stop {α : Type} (pages : Nat → List α) (totalPages : Nat) :
    ∀ (fuel cp : Nat) (acc : List α) (nav : List Nat) (k : Nat),
      cp ≤ k → k ≤ totalPages → totalPages + 1 ≤ fuel + cp →
      pages k = [] → (∀ j, cp ≤ j → j < k → pages j ≠ []) →
      ∃ acc2 nav2, seekLoop pages totalPages fuel cp acc nav = (acc2, k, nav2) ∧
        ∀ p ∈ nav2, p ∈ nav ∨ p ≤ k := by
  intro fuel
  induction fuel with
  | zero => intro cp acc nav k h1 h2 h3 _ _; omega
  | succ f ih =>
      intro cp acc nav k h1 h2 h3 hk hne
      simp only [seekLoop]
      rw [if_pos (le_trans h1 h2)]
      by_cases hck : cp = k
      · subst hck
        rw [hk]
        simp only [List.length_nil, if_pos rfl]
        refine ⟨acc, _, rfl, ?_⟩
        intro p hp
        by_cases h1c : 1 < cp
        · rw [if_pos h1c] at hp
          rcases List.mem_append.mp hp with h | h
          · exact Or.inl h
          · right
            have : p = cp := List.mem_singleton.mp h
            omega
        · rw [if_neg h1c] at hp
          exact Or.inl hp
      · have hlt : cp < k := Nat.lt_of_le_of_ne h1 hck
        have hnil : pages cp ≠ [] := hne cp le_rfl hlt
        rw [if_neg (by simpa [List.length_eq_zero] using hnil)]
        obtain ⟨acc2, nav2, heq, hmem⟩ :=
          ih (cp + 1) (acc ++ pages cp) (if 1 < cp then nav ++ [cp] else nav) k
            (by omega) h2 (by omega) hk (fun j hj1 hj2 => hne j (by omega) hj2)
        refine ⟨acc2, nav2, heq, ?_⟩
        intro p hp
        rcases hmem p hp with h | h
        · by_cases h1c : 1 < cp
          · rw [if_pos h1c] at h
            rcases List.mem_append.mp h with h' | h'
            · exact Or.inl h'
            · right
              have : p = cp := List.mem_singleton.mp h'
              omega
          · rw [if_neg h1c] at h
            exact Or.inl h
        · exact Or.inr h

/-- Closed form of the `#crawl` recovery fold: one error record and one
restart per matching signature, nothing persisted otherwise, never
propagated. -/
theorem recovery_fold_crawl (msg : String) :
    ∀ (l : List String) (acc : RecoveryOutcome),
      (l.foldl (crawlCatchStep msg) acc).errorRecords =
        acc.errorRecords + (l.filter (fun e => jsIncludes msg e)).length ∧
      (l.foldl (crawlCatchStep msg) acc).restarts =
        acc.restarts + (l.filter (fun e => jsIncludes msg e)).length ∧
      (l.foldl (crawlCatchStep msg) acc).released = acc.released ∧
      (l.foldl (crawlCatchStep msg) acc).propagated = acc.propagated := by
  intro l
  induction l with
  | nil => intro acc; simp
  | cons e tl ih =>
      intro acc
      have h := ih (crawlCatchStep msg acc e)
      by_cases hc : jsIncludes msg e = true
      · have hstep : (crawlCatchStep msg acc e).errorRecords = acc.errorRecords + 1 ∧
            (crawlCatchStep msg acc e).restarts = acc.restarts + 1 ∧
            (crawlCatchStep msg acc e).released = acc.released ∧
            (crawlCatchStep msg acc e).propagated = acc.propagated := by
          simp [crawlCatchStep, hc]
        simp only [List.foldl_cons, List.filter_cons, hc, if_true, List.length_cons]
        refine ⟨?_, ?_, ?_, ?_⟩
        · rw [h.1, hstep.1]; omega
        · rw [h.2.1, hstep.2.1]; omega
        · rw [h.2.2.1, hstep.2.2.1]
        · rw [h.2.2.2, hstep.2.2.2]
      · have hstep : crawlCatchStep msg acc e = acc := by
          simp [crawlCatchStep, hc]
        simp only [List.foldl_cons, List.filter_cons, hc, if_false]
        rw [hstep] at h ⊢
        exact h

/-- Closed form of the `#advertLinks` recovery fold: an error record on
every signature iteration whether or not it matches, a restart per match,
never propagated. -/
theorem recovery_fold_advert (msg : String) :
    ∀ (l : List String) (acc : RecoveryOutcome),
      (l.foldl (advertCatchStep msg) acc).errorRecords = acc.errorRecords + l.length ∧
      (l.foldl (advertCatchStep msg) acc).restarts =
        acc.restarts + (l.filter (fun e => jsIncludes msg e)).length ∧
      (l.foldl (advertCatchStep msg) acc).released = acc.released ∧
      (l.foldl (advertCatchStep msg) acc).propagated = acc.propagated := by
  intro l
  induction l with
  | nil => intro acc; simp
  | cons e tl ih =>
      intro acc
      have h := ih (advertCatchStep msg acc e)
      have hstep : (advertCatchStep msg acc e).errorRecords = acc.errorRecords + 1 ∧
          (advertCatchStep msg acc e).restarts =
            acc.restarts + (if jsIncludes msg e then 1 else 0) ∧
          (advertCatchStep msg acc e).released = acc.released ∧
          (advertCatchStep msg acc e).propagated = acc.propagated := by
        by_cases hc : jsIncludes msg e = true <;> simp [advertCatchStep, hc]
      simp only [List.foldl_cons, List.filter_cons, List.length_cons]
      refine ⟨?_, ?_, ?_, ?_⟩
      · rw [h.1, hstep.1]; omega
      · rw [h.2.1, hstep.2.1]
        by_cases hc : jsIncludes msg e = true
        · simp only [hc, if_true, List.length_cons]
          omega
        · simp [hc]
      · rw [h.2.2.1, hstep.2.2.1]
      · rw [h.2.2.2, hstep.2.2.2]

/-! ## Claims -/

/-- C1: Cache freshness rule — for an entry whose stored `lastScraped`
parses to `t0`, `#checkCache` at a current time `now` with
`now - t0 ≤ 24` hours returns the cached details, and at `now` with
`now - t0 > 24` hours returns null, even though the entry (hypothesis `hl`)
still exists in the map. -/
theorem cache_freshness_rule (parseDate : String → Option Int)
    (cache : List (String × CacheEntry)) (jobId : String) (e : CacheEntry)
    (now t0 : Int) (hl : lookupEntry cache jobId = some e)
    (hp : parseDate e.lastScraped = some t0) :
    (now - t0 ≤ msPerDay → checkCache parseDate cache now jobId = some e.details) ∧
    (msPerDay < now - t0 → checkCache parseDate cache now jobId = none) := by
  have hcc : checkCache parseDate cache now jobId =
      if decide (msPerDay < now - t0) = true then none else some e.details := by
    unfold checkCache
    rw [hl]
    show (if jsAgeExceeds (Option.map (fun t0 => now - t0) (parseDate e.lastScraped)) msPerDay
        then none else some e.details) = _
    rw [hp]
    rfl
  constructor
  · intro h
    rw [hcc, if_neg (by simp only [decide_eq_true_eq]; omega)]
  · intro h
    rw [hcc, if_pos (by simp only [decide_eq_true_eq]; omega)]

theorem cache_freshness_rule_witness :
    checkCache parseAlways0 sampleCache 86400000 "REQ-1" = some sampleDetails ∧
    checkCache parseAlways0 sampleCache 86400001 "REQ-1" = none := by
  constructor
  · exact (cache_freshness_rule parseAlways0 sampleCache "REQ-1" sampleEntry
      86400000 0 rfl rfl).1 (by decide)
  · exact (cache_freshness_rule parseAlways0 sampleCache "REQ-1" sampleEntry
      86400001 0 rfl rfl).2 (by decide)

/-- C10: an entry whose stored `lastScraped` string does not parse to a
valid timestamp (such as the `YYYY-MM-DD-HH-MM-SS` strings `dateTimestamp`
produces, which `loadCache` copies from `metadata.date_scraped` and V8
reads as an Invalid Date) is treated as permanently fresh: `#checkCache`
returns the cached details at every current time, because the NaN age
comparison is false. -/
theorem invalid_date_always_fresh (parseDate : String → Option Int)
    (cache : List (String × CacheEntry)) (jobId : String) (e : CacheEntry)
    (hl : lookupEntry cache jobId = some e)
    (hp : parseDate e.lastScraped = none) :
    ∀ now : Int, checkCache parseDate cache now jobId = some e.details := by
  intro now
  unfold checkCache
  rw [hl]
  show (if jsAgeExceeds (Option.map (fun t0 => now - t0) (parseDate e.lastScraped)) msPerDay
      then none else some e.details) = some e.details
  rw [hp]
  rfl

theorem invalid_date_always_fresh_witness :
    checkCache parseNever sampleCache 999999999999999 "REQ-1" = some sampleDetails :=
  invalid_date_always_fresh parseNever sampleCache "REQ-1" sampleEntry
    rfl rfl 999999999999999

/-- Unfolding of `seekCrawl` on a non-zero announced count. -/
theorem seekCrawl_eq {α : Type} (pages : Nat → List α) (totalJobs : Nat)
    (h0 : totalJobs ≠ 0) :
    seekCrawl pages totalJobs = Except.ok
      { allJobs :=
          (seekLoop pages (computeTotalPages totalJobs 22)
            (computeTotalPages totalJobs 22) 1 [] [1]).1,
        totalPages := computeTotalPages totalJobs 22,
        totalPagesPersisted :=
          (seekLoop pages (computeTotalPages totalJobs 22)
            (computeTotalPages totalJobs 22) 1 [] [1]).2.1 - 1,
        navigated :=
          (seekLoop pages (computeTotalPages totalJobs 22)
            (computeTotalPages totalJobs 22) 1 [] [1]).2.2 } := by
  unfold seekCrawl
  rw [if_neg h0]

/-- C2 (amended): early stop holds for the seek crawl only — when page `k`
is the first page yielding zero summaries, its loop exits without error,
no page beyond `k` is ever navigated, and the persisted `total_pages` is
`k - 1`.  (The NSW crawl has no early stop; see the counterexample.) -/
theorem seek_early_stop {α : Type} (pages : Nat → List α) (totalJobs k : Nat)
    (h0 : totalJobs ≠ 0) (hk1 : 1 ≤ k)
    (hk : k ≤ computeTotalPages totalJobs 22)
    (hempty : pages k = [])
    (hfull : ∀ j, 1 ≤ j → j < k → pages j ≠ []) :
    ∃ out, seekCrawl pages totalJobs = Except.ok out ∧
      out.totalPagesPersisted = k - 1 ∧
      ∀ p ∈ out.navigated, p ≤ k := by
  obtain ⟨acc2, nav2, heq, hmem⟩ :=
    seekLoop_early_stop pages (computeTotalPages totalJobs 22)
      (computeTotalPages totalJobs 22) 1 [] [1] k hk1 hk (by omega) hempty
      (fun j hj1 hj2 => hfull j hj1 hj2)
  refine ⟨_, seekCrawl_eq pages totalJobs h0, ?_, ?_⟩
  · show (seekLoop pages (computeTotalPages totalJobs 22)
        (computeTotalPages totalJobs 22) 1 [] [1]).2.1 - 1 = k - 1
    rw [heq]
  · intro p hp
    have hp2 : p ∈ (seekLoop pages (computeTotalPages totalJobs 22)
        (computeTotalPages totalJobs 22) 1 [] [1]).2.2 := hp
    rw [heq] at hp2
    rcases hmem p hp2 with h | h
    · have : p = 1 := List.mem_singleton.mp h
      omega
    · exact h

theorem seek_early_stop_witness :
    ∃ out, seekCrawl seekPagesW 47 = Except.ok out ∧
      out.totalPagesPersisted = 1 ∧
      ∀ p ∈ out.navigated, p ≤ 2 := by
  exact seek_early_stop seekPagesW 47 2 (by decide) (by decide) (by decide) (by decide)
    (by
      intro j h1 h2
      have hj : j = 1 := by omega
      subst hj
      decide)

/-- C2 (counterexample): the NSW crawl does not early-stop.  With an
announced total of 47 jobs (2 pages of size 25) and every page yielding
zero summaries, page 1 is empty yet page 2 is still navigated and the
persisted `total_pages` is 2, not `1 - 1 = 0`. -/
theorem nsw_no_early_stop_cx :
    (nswCrawl (fun _ => ([] : List Nat)) 47).navigated = [1, 2] ∧
    (nswCrawl (fun _ => ([] : List Nat)) 47).totalPagesPersisted = 2 := by
  constructor
  · rfl
  · rfl

/-- C8: page-count discovery — both crawls compute
`totalPages = ceil(totalAnnouncedCount / pageSize)` (page size 25 for the
NSW source, 22 for the seek source): the computed value is the least `n`
with `totalAnnouncedCount ≤ pageSize * n`. -/
theorem page_count_discovery {α : Type} (pages : Nat → List α) (totalJobs : Nat) :
    (nswCrawl pages totalJobs).totalPages = computeTotalPages totalJobs 25 ∧
    totalJobs ≤ 25 * (nswCrawl pages totalJobs).totalPages ∧
    25 * (nswCrawl pages totalJobs).totalPages < totalJobs + 25 ∧
    (totalJobs ≠ 0 →
      ∃ out, seekCrawl pages totalJobs = Except.ok out ∧
        out.totalPages = computeTotalPages totalJobs 22 ∧
        totalJobs ≤ 22 * out.totalPages ∧ 22 * out.totalPages < totalJobs + 22) := by
  have h25 : (nswCrawl pages totalJobs).totalPages = computeTotalPages totalJobs 25 := rfl
  refine ⟨h25, ?_, ?_, ?_⟩
  · rw [h25]; unfold computeTotalPages; omega
  · rw [h25]; unfold computeTotalPages; omega
  · intro h0
    refine ⟨_, seekCrawl_eq pages totalJobs h0, rfl, ?_, ?_⟩
    · show totalJobs ≤ 22 * computeTotalPages totalJobs 22
      unfold computeTotalPages; omega
    · show 22 * computeTotalPages totalJobs 22 < totalJobs + 22
      unfold computeTotalPages; omega

theorem page_count_discovery_witness :
    (nswCrawl (fun _ => ([] : List Nat)) 47).totalPages = 2 ∧
    47 ≤ 25 * (nswCrawl (fun _ => ([] : List Nat)) 47).totalPages ∧
    ∃ out, seekCrawl (fun _ => ([] : List Nat)) 47 = Except.ok out ∧
      out.totalPages = 3 := by
  have h := page_count_discovery (fun _ => ([] : List Nat)) 47
  refine ⟨h.1, h.2.1, ?_⟩
  obtain ⟨out, ho, ht, _⟩ := h.2.2.2 (by decide)
  exact ⟨out, ho, ht⟩

/-- C3 (amended): detail-failure containment — when the detail fetch of an item
fails, `#scrapeJobDetails` returns null without raising, the session
continues (the loop is total, so no transition to FAILED), and the record of the item
is still pushed with `details: null`; however the failure is NOT
counted in `failedScrapes`, which stays 0 over any run — the item is counted
in `successfulScrapes` instead. -/
theorem detail_failure_containment (parseDate : String → Option Int) (now : Int) :
    (∀ (cache : List (String × CacheEntry)) (items : List (JobInfo × DetailFetchEnv)),
      (scrapeJobs parseDate now cache items).failedScrapes = 0 ∧
      (scrapeJobs parseDate now cache items).jobs.length = items.length) ∧
    (∀ (st : ScrapeState) (j : JobInfo) (env : DetailFetchEnv),
      checkCache parseDate st.cache now j.jobId = none → env.isFailure = true →
      (processJob parseDate now st (j, env)).jobs = st.jobs ++ [mergeRecord j none] ∧
      (processJob parseDate now st (j, env)).failedScrapes = st.failedScrapes ∧
      (processJob parseDate now st (j, env)).successfulScrapes = st.successfulScrapes + 1) := by
  constructor
  · intro cache items
    have h := scrapeJobs_fold_invariant parseDate now items (initScrapeState cache)
    unfold scrapeJobs
    exact ⟨h.1, by rw [h.2]; simp [initScrapeState]⟩
  · intro st j env hmiss hfail
    cases env with
    | ok d iso => simp [DetailFetchEnv.isFailure] at hfail
    | newPageFails m => simp [processJob, hmiss, scrapeJobDetails, detailTry]
    | gotoFails m => simp [processJob, hmiss, scrapeJobDetails, detailTry]
    | waitFails m => simp [processJob, hmiss, scrapeJobDetails, detailTry]
    | evalFails m => simp [processJob, hmiss, scrapeJobDetails, detailTry]

theorem detail_failure_containment_witness :
    (processJob parseNever 0 (initScrapeState [])
      (sampleJob, DetailFetchEnv.gotoFails "net::ERR_TIMED_OUT")).jobs =
        [mergeRecord sampleJob none] ∧
    (processJob parseNever 0 (initScrapeState [])
      (sampleJob, DetailFetchEnv.gotoFails "net::ERR_TIMED_OUT")).failedScrapes = 0 := by
  have h := (detail_failure_containment parseNever 0).2 (initScrapeState []) sampleJob
    (DetailFetchEnv.gotoFails "net::ERR_TIMED_OUT") rfl rfl
  exact ⟨h.1, h.2.1⟩

/-- C3 (counterexample): one item whose detail fetch fails with a navigation
error — the record is pushed with null details, yet `failedScrapes` is 0 and
`successfulScrapes` is 1: the failure is not counted in `failedScrapes` as
the claim states (the catch at nswGovJobs.js lines 345-348 is unreachable
because `#scrapeJobDetails` never throws). -/
theorem detail_failure_not_counted_cx :
    (scrapeJobs parseNever 0 []
      [(sampleJob, DetailFetchEnv.gotoFails "net::ERR_TIMED_OUT")]).failedScrapes = 0 ∧
    (scrapeJobs parseNever 0 []
      [(sampleJob, DetailFetchEnv.gotoFails "net::ERR_TIMED_OUT")]).successfulScrapes = 1 ∧
    (scrapeJobs parseNever 0 []
      [(sampleJob, DetailFetchEnv.gotoFails "net::ERR_TIMED_OUT")]).jobs =
        [mergeRecord sampleJob none] := by
  refine ⟨rfl, rfl, rfl⟩

/-- C4 (amended): the isolated detail context is closed before returning on
the success path only; on a failure after the context is opened (navigation
error, missing selector/timeout, extraction error) the catch returns null
without closing it, and when opening the context itself fails no context
exists.  Stated for the NSW fetcher; the seek fetcher has the same body. -/
theorem detail_context_release_paths (parseDate : String → Option Int)
    (cache : List (String × CacheEntry)) (now : Int) (jobId : String)
    (hmiss : checkCache parseDate cache now jobId = none) :
    ∀ (d : JobDetails) (iso m : String),
      ((scrapeJobDetails parseDate cache now jobId (DetailFetchEnv.ok d iso)).1.opened = true ∧
       (scrapeJobDetails parseDate cache now jobId (DetailFetchEnv.ok d iso)).1.closed = true) ∧
      ((scrapeJobDetails parseDate cache now jobId (DetailFetchEnv.gotoFails m)).1.opened = true ∧
       (scrapeJobDetails parseDate cache now jobId (DetailFetchEnv.gotoFails m)).1.closed = false) ∧
      ((scrapeJobDetails parseDate cache now jobId (DetailFetchEnv.waitFails m)).1.opened = true ∧
       (scrapeJobDetails parseDate cache now jobId (DetailFetchEnv.waitFails m)).1.closed = false) ∧
      ((scrapeJobDetails parseDate cache now jobId (DetailFetchEnv.evalFails m)).1.opened = true ∧
       (scrapeJobDetails parseDate cache now jobId (DetailFetchEnv.evalFails m)).1.closed = false) ∧
      (scrapeJobDetails parseDate cache now jobId (DetailFetchEnv.newPageFails m)).1.opened = false := by
  intro d iso m
  simp [scrapeJobDetails, hmiss, detailTry]

theorem detail_context_release_paths_witness :
    (scrapeJobDetails parseNever [] 0 "REQ-1"
      (DetailFetchEnv.ok sampleDetails "2025-01-02T00:00:00.000Z")).1.opened = true ∧
    (scrapeJobDetails parseNever [] 0 "REQ-1"
      (DetailFetchEnv.ok sampleDetails "2025-01-02T00:00:00.000Z")).1.closed = true :=
  (detail_context_release_paths parseNever [] 0 "REQ-1" rfl sampleDetails
    "2025-01-02T00:00:00.000Z" "x").1

/-- C4 (counterexample): a navigation error after the detail page is opened
leaves the context open when the call returns — the claim that the context
is closed on every failure path is false. -/
theorem detail_context_leak_cx :
    (scrapeJobDetails parseNever [] 0 "REQ-1"
      (DetailFetchEnv.gotoFails "net::ERR_TIMED_OUT")).1.opened = true ∧
    (scrapeJobDetails parseNever [] 0 "REQ-1"
      (DetailFetchEnv.gotoFails "net::ERR_TIMED_OUT")).1.closed = false ∧
    (scrapeJobDetails parseNever [] 0 "REQ-1"
      (DetailFetchEnv.gotoFails "net::ERR_TIMED_OUT")).2 = none := by
  refine ⟨rfl, rfl, rfl⟩

/-- C5 (amended): per-item extraction isolation holds in the seek extractor
only — an item whose extraction callback throws is mapped to null and
filtered out, so the items before and after it are still extracted and
returned and only that item is dropped (the failure is logged, not
counted).  The NSW extractor has no per-item handler (counterexample). -/
theorem seek_extract_isolation (pre suf : List (Except String JobInfo)) (m : String) :
    seekExtract (pre ++ Except.error m :: suf) = seekExtract pre ++ seekExtract suf ∧
    ∀ (l : List JobInfo), seekExtract (l.map Except.ok) = l := by
  constructor
  · induction pre with
    | nil => rfl
    | cons e rest ih =>
        cases e with
        | error m2 => simpa [seekExtract] using ih
        | ok j => simpa [seekExtract] using ih
  · intro l
    induction l with
    | nil => rfl
    | cons j rest ih => simpa [seekExtract] using ih

/-- C5 (counterexample): in the NSW extractor a throw at item 2 aborts the
extraction of the whole page — item 3 is not extracted and nothing is returned,
contradicting the claim that items `i+1..n` are still returned. -/
theorem nsw_extract_abort_cx :
    nswExtract [Except.ok sampleJob, Except.error "boom", Except.ok sampleJob] =
      Except.error "boom" ∧
    nswExtract [Except.ok sampleJob, Except.error "boom", Except.ok sampleJob] ≠
      Except.ok [sampleJob, sampleJob] := by
  refine ⟨rfl, ?_⟩
  intro hcontra
  rw [show nswExtract [Except.ok sampleJob, Except.error "boom", Except.ok sampleJob] =
      Except.error "boom" from rfl] at hcontra
  exact Except.noConfusion hcontra

/-- C6: merge completeness — the record `{...jobInfo, details: jobDetails}`
(nswGovJobs.js lines 336-342) keeps every Job Summary field under its
original name with its original value, appends a `details` field equal to
the resolved Job Detail, and drops or renames nothing: its key list is the
key list of the summary plus `details`. -/
theorem merge_completeness (j : JobInfo) (d : JobDetails) :
    getField (mergeRecord j (some d)) "title" = some (JValue.s j.title) ∧
    getField (mergeRecord j (some d)) "postingDate" = some (JValue.s j.postingDate) ∧
    getField (mergeRecord j (some d)) "closingDate" = some (JValue.s j.closingDate) ∧
    getField (mergeRecord j (some d)) "categories" = some (JValue.strs j.categories) ∧
    getField (mergeRecord j (some d)) "locations" = some (JValue.strs j.locations) ∧
    getField (mergeRecord j (some d)) "department" = some (JValue.s j.department) ∧
    getField (mergeRecord j (some d)) "jobType" = some (JValue.s j.jobType) ∧
    getField (mergeRecord j (some d)) "jobId" = some (JValue.s j.jobId) ∧
    getField (mergeRecord j (some d)) "jobUrl" = some (JValue.s j.jobUrl) ∧
    getField (mergeRecord j (some d)) "description" = some (JValue.s j.description) ∧
    getField (mergeRecord j (some d)) "details" = some (JValue.det (some d)) ∧
    (mergeRecord j (some d)).map Prod.fst = (JobInfo.fields j).map Prod.fst ++ ["details"] := by
  refine ⟨rfl, rfl, rfl, rfl, rfl, rfl, rfl, rfl, rfl, rfl, rfl, rfl⟩

/-- C7: cache-hit frame effect — with a fresh cache entry for the jobId, the
detail fetcher returns the cached detail immediately, opens no page, loads
no URL and leaves the cache unchanged; and the number of records a page run
produces equals the number of extracted items no matter how many details
came from cache. -/
theorem cache_hit_no_navigation (parseDate : String → Option Int)
    (cache : List (String × CacheEntry)) (now : Int) (jobId : String)
    (d : JobDetails) (h : checkCache parseDate cache now jobId = some d) :
    (∀ env, scrapeJobDetails parseDate cache now jobId env =
      ({ opened := false, closed := false, navigations := 0, cacheAfter := cache }, some d)) ∧
    ∀ (items : List (JobInfo × DetailFetchEnv)),
      (scrapeJobs parseDate now cache items).jobs.length = items.length := by
  constructor
  · intro env
    simp [scrapeJobDetails, h]
  · intro items
    have h2 := scrapeJobs_fold_invariant parseDate now items (initScrapeState cache)
    unfold scrapeJobs
    rw [h2.2]
    simp [initScrapeState]

theorem cache_hit_no_navigation_witness :
    scrapeJobDetails parseAlways0 sampleCache 0 "REQ-1"
      (DetailFetchEnv.gotoFails "x") =
      ({ opened := false, closed := false, navigations := 0, cacheAfter := sampleCache },
        some sampleDetails) :=
  (cache_hit_no_navigation parseAlways0 sampleCache 0 "REQ-1" sampleDetails rfl).1
    (DetailFetchEnv.gotoFails "x")

/-- C9 (amended): in the recovery handler of `PublicJobSpider.#crawl` the
provider is released first and nothing propagates; one error record is
persisted and one restart launched per known-transient signature contained
in the message — so a message matching no signature persists no error
record and the failure is swallowed, not propagated.  In
the handler of `PublicJobSpider.#advertLinks` an error record is written on
every one of its three signature iterations whether or not it matches
(three records), with one restart per matching signature and again no
propagation. -/
theorem recovery_policy (msg : String) :
    (publicCrawlCatch msg).errorRecords =
      (crawlTransientErrors.filter (fun e => jsIncludes msg e)).length ∧
    (publicCrawlCatch msg).restarts =
      (crawlTransientErrors.filter (fun e => jsIncludes msg e)).length ∧
    (publicCrawlCatch msg).released = true ∧
    (publicCrawlCatch msg).propagated = false ∧
    (publicAdvertCatch msg).errorRecords = 3 ∧
    (publicAdvertCatch msg).restarts =
      (advertTransientErrors.filter (fun e => jsIncludes msg e)).length ∧
    (publicAdvertCatch msg).released = true ∧
    (publicAdvertCatch msg).propagated = false := by
  have hc := recovery_fold_crawl msg crawlTransientErrors recoveryInit
  have ha := recovery_fold_advert msg advertTransientErrors recoveryInit
  refine ⟨?_, ?_, ?_, ?_, ?_, ?_, ?_, ?_⟩
  · simpa [publicCrawlCatch, recoveryInit] using hc.1
  · simpa [publicCrawlCatch, recoveryInit] using hc.2.1
  · exact hc.2.2.1
  · exact hc.2.2.2
  · exact ha.1
  · simpa [publicAdvertCatch, recoveryInit] using ha.2.1
  · exact ha.2.2.1
  · exact ha.2.2.2

/-- C9 (counterexample): on the error message `Target closed` the
`#advertLinks` handler persists three error records, not exactly one; and on
an unknown error message the `#crawl` handler persists no error record at
all and does not propagate the failure, contradicting the claim that an
error record is still persisted and the failure propagates. -/
theorem recovery_policy_cx :
    (publicAdvertCatch "Target closed").errorRecords = 3 ∧
    (publicAdvertCatch "Target closed").restarts = 1 ∧
    (publicCrawlCatch "ReferenceError: x is undefined").errorRecords = 0 ∧
    (publicCrawlCatch "ReferenceError: x is undefined").restarts = 0 ∧
    (publicCrawlCatch "ReferenceError: x is undefined").propagated = false := by
  refine ⟨rfl, rfl, rfl, rfl, rfl⟩

end Scraper
